import Mathlib

/-!
Shallow embedding of the book-alchemy library application
(src/app.py and src/data_models.py) and proofs about its
catalog-mutation layer: adding authors and books, the two
book-deletion modes, cascading author deletion, seeding, and the
external ISBN/title verifier.

Conventions of the embedding:
  - The durable store is a pair of lists (authors, books); surrogate
    ids are modelled as Int and assigned as (max existing id) + 1,
    mirroring SQLite rowid assignment.
  - Each Flask route becomes a function `Store -> form inputs ->
    Store x HttpResult`; the returned store is the durable state after
    the request (commits applied, rollbacks and failed commits leaving
    the store unchanged).
  - `HttpResult.raised` marks a request that ends with an uncaught
    Python exception (HTTP 500); `.page` and `.redirectHome` carry the
    user-facing status message of a rendered page or a redirect.
  - The external HTTP call of validate_isbn_title is a parameter of
    type RemoteResult describing what the requests library delivered.
-/

namespace BookAlchemy

/-- A calendar date as produced by datetime.date. -/
structure PyDate where
  year : Nat
  month : Nat
  day : Nat
deriving DecidableEq, Repr

/-- Python str.strip(): remove leading and trailing whitespace. -/
def pyStrip (s : String) : String :=
  ⟨((s.data.dropWhile Char.isWhitespace).reverse.dropWhile Char.isWhitespace).reverse⟩

/-- Python str.lower(), restricted to ASCII as SQLite lower() also is. -/
def pyLower (s : String) : String :=
  ⟨s.data.map Char.toLower⟩

/-- Split a character list at every occurrence of the separator. -/
def splitCharAux (sep : Char) : List Char → List Char → List (List Char)
  | [], acc => [acc.reverse]
  | c :: rest, acc =>
    if c = sep then acc.reverse :: splitCharAux sep rest []
    else splitCharAux sep rest (c :: acc)

/-- Python s.split on the dash separator, as strptime %Y-%m-%d cuts its
input. -/
def splitDash (s : String) : List (List Char) :=
  splitCharAux (Char.ofNat 45) s.data []

/-- Value of a decimal digit character. -/
def digitVal (c : Char) : Option Nat :=
  if c.isDigit then some (c.toNat - 48) else none

def digitsToNatAux : List Char → Nat → Option Nat
  | [], acc => some acc
  | c :: rest, acc =>
    match digitVal c with
    | none => none
    | some d => digitsToNatAux rest (acc * 10 + d)

/-- Parse a nonempty all-digit character list as a natural number. -/
def digitsToNat? : List Char → Option Nat
  | [] => none
  | l => digitsToNatAux l 0

/-- Python int() digit run after the first digit: decimal digits with a
single underscore allowed between two digits ("1_000"), never trailing or
doubled. -/
def pyDigitsAux : List Char → Nat → Option Nat
  | [], acc => some acc
  | c :: rest, acc =>
    match digitVal c with
    | some d => pyDigitsAux rest (acc * 10 + d)
    | none =>
      if c = Char.ofNat 95 then
        match rest with
        | c2 :: rest2 =>
          match digitVal c2 with
          | some d => pyDigitsAux rest2 (acc * 10 + d)
          | none => none
        | [] => none
      else none

/-- Python int() digit part: starts with a digit, then digits with
underscore grouping. -/
def pyDigits? : List Char → Option Nat
  | [] => none
  | c :: rest =>
    match digitVal c with
    | some d => pyDigitsAux rest d
    | none => none

/-- Python int(s): surrounding whitespace, an optional sign, then decimal
digits with underscore grouping; None where the Python call raises
ValueError. -/
def pyInt (s : String) : Option Int :=
  match (pyStrip s).data with
  | [] => none
  | c :: rest =>
    if c = Char.ofNat 43 then (pyDigits? rest).map Int.ofNat
    else if c = Char.ofNat 45 then (pyDigits? rest).map fun n => -(Int.ofNat n)
    else (pyDigits? (c :: rest)).map Int.ofNat

/-- Days in a month, with Gregorian leap years, as datetime validates them. -/
def daysInMonth (y m : Nat) : Nat :=
  if m = 2 then (if (y % 4 = 0 ∧ y % 100 ≠ 0) ∨ y % 400 = 0 then 29 else 28)
  else if m = 4 ∨ m = 6 ∨ m = 9 ∨ m = 11 then 30 else 31

/-- datetime.strptime(s, "%Y-%m-%d").date(): three dash-separated digit
fields — %Y exactly four digits, %m and %d one or two — with month, day
and year range checks; none on failure, where the Python call raises
ValueError. -/
def strptimeYmd (s : String) : Option PyDate :=
  match splitDash s with
  | [ys, ms, ds] =>
    match digitsToNat? ys, digitsToNat? ms, digitsToNat? ds with
    | some y, some m, some d =>
      if ys.length = 4 ∧ ms.length ≤ 2 ∧ ds.length ≤ 2
          ∧ 1 ≤ y ∧ 1 ≤ m ∧ m ≤ 12 ∧ 1 ≤ d ∧ d ≤ daysInMonth y m then
        some ⟨y, m, d⟩
      else none
    | _, _, _ => none
  | _ => none

/-- parse_date from src/app.py: empty or missing input gives None;
otherwise strptime, whose ValueError propagates (modelled as .error). -/
def parse_date (value : Option String) : Except Unit (Option PyDate) :=
  match value with
  | none => .ok none
  | some s =>
    if s = "" then .ok none
    else
      match strptimeYmd s with
      | some d => .ok (some d)
      | none => .error ()

/-- Python truthiness of an optional form string: falsy when absent or empty. -/
def falsyOptStr : Option String → Bool
  | none => true
  | some s => s = ""

/-- Row of the authors table (src/data_models.py, class Author). -/
structure Author where
  id : Int
  name : String
  birth_date : PyDate
  date_of_death : Option PyDate
deriving DecidableEq, Repr

/-- Row of the books table (src/data_models.py, class Book). -/
structure Book where
  id : Int
  isbn : String
  title : String
  publication_year : Int
  author_id : Int
deriving DecidableEq, Repr

/-- The durable database state: the two tables. -/
structure Store where
  authors : List Author
  books : List Book
deriving DecidableEq, Repr

/-- SQLite rowid assignment for a fresh row: one more than the largest id. -/
def nextId (ids : List Int) : Int := ids.foldr max 0 + 1

/-- Body delivered for the OpenLibrary response: either JSON that fails to
parse (response.json() raises), or a JSON record whose "title" field is
absent (none) or a string. -/
inductive JsonBody where
  | malformed
  | record (title : Option String)
deriving DecidableEq, Repr

/-- What requests.get delivered: a RequestException, or a response with a
status code and a body. -/
inductive RemoteResult where
  | exn
  | resp (status : Nat) (body : JsonBody)
deriving DecidableEq, Repr

/-- validate_isbn_title from src/app.py. The try block covers only
requests.get, so a 200 response whose body fails to parse as JSON makes
response.json() raise outside any handler (.error). The isbn argument
only feeds the request URL. -/
def validate_isbn_title (isbn title : String) (remote : RemoteResult) :
    Except Unit (Bool × Option String) :=
  match remote with
  | .exn => .ok (true, none)
  | .resp status body =>
    if status ≠ 200 then .ok (true, none)
    else
      match body with
      | .malformed => .error ()
      | .record t =>
        let ol_title := t.getD ""
        if ol_title = "" then .ok (true, none)
        else if pyLower (pyStrip ol_title) ≠ pyLower (pyStrip title) then
          .ok (false, some ("Title \x27" ++ title ++ "\x27 does not match OpenLibrary title \x27"
            ++ ol_title ++ "\x27 for this ISBN."))
        else .ok (true, none)

/-- Observable outcome of one request, as the client sees it. -/
inductive HttpResult where
  | page (message : String)
  | redirectHome (message : String)
  | notFound
  | raised
deriving DecidableEq, Repr

/-- POST /add_author from src/app.py. A malformed non-empty date string
makes parse_date raise with no handler on this route, so the request ends
in .raised with nothing persisted (the insert and commit are never
reached). The all-patterns fallback also covers a None birth_date reaching
the nullable=False column, which the commit would reject. -/
def add_author (s : Store) (name_raw birthdate_raw date_of_death_raw : Option String) :
    Store × HttpResult :=
  let name := pyStrip (name_raw.getD "")
  if name = "" ∨ falsyOptStr birthdate_raw then
    (s, .page "Name and birthdate are required.")
  else if (s.authors.find? fun a => pyLower a.name == pyLower name).isSome then
    (s, .page ("Author \x27" ++ name ++ "\x27 already exists."))
  else
    match parse_date birthdate_raw, parse_date date_of_death_raw with
    | .ok (some birth_date), .ok date_of_death =>
      ({ s with authors := s.authors ++
          [{ id := nextId (s.authors.map (·.id)), name := name,
             birth_date := birth_date, date_of_death := date_of_death }] },
       .page ("Author \x27" ++ name ++ "\x27 added successfully."))
    | _, _ => (s, .raised)

/-- POST /add_book from src/app.py: required-field check, int parsing,
exact ISBN duplicate check, case-insensitive title-per-author duplicate
check, then validate_isbn_title, then insert and commit. The route has no
try/except: a raising validate_isbn_title propagates, and a commit whose
author_id has no matching authors row raises IntegrityError (PRAGMA
foreign_keys=ON is installed on every connection), both leaving the
durable store unchanged. -/
def add_book (s : Store) (isbn_raw title_raw publication_year_raw author_id_raw : Option String)
    (remote : RemoteResult) : Store × HttpResult :=
  let isbn := pyStrip (isbn_raw.getD "")
  let title := pyStrip (title_raw.getD "")
  if isbn = "" ∨ title = "" ∨ falsyOptStr publication_year_raw ∨ falsyOptStr author_id_raw then
    (s, .page "All fields are required.")
  else
    match pyInt (publication_year_raw.getD ""), pyInt (author_id_raw.getD "") with
    | some publication_year, some author_id =>
      if s.books.any fun b => b.isbn == isbn then
        (s, .page ("A book with ISBN " ++ isbn ++ " already exists."))
      else if s.books.any fun b => pyLower b.title == pyLower title && b.author_id == author_id then
        (s, .page ("The author already has a book titled \x27" ++ title ++ "\x27."))
      else
        match validate_isbn_title isbn title remote with
        | .error _ => (s, .raised)
        | .ok (ok, error_msg) =>
          if !ok then (s, .page (error_msg.getD ""))
          else if s.authors.any fun a => a.id == author_id then
            ({ s with books := s.books ++
                [{ id := nextId (s.books.map (·.id)), isbn := isbn, title := title,
                   publication_year := publication_year, author_id := author_id }] },
             .page ("Book \x27" ++ title ++ "\x27 added successfully."))
          else (s, .raised)
    | _, _ => (s, .page "Publication year and author must be valid.")

/-- POST /book/:id/delete from src/app.py. get_or_404 aborts when the book
id is unknown. book.author is resolved by primary key before the try
block; a dangling author_id would make author.id raise there. Deleting
the author (mode book_and_author with a single-book author) also applies
the ORM cascade removing any book still referencing the author. For a
mode other than book and book_and_author no branch assigns msg, so the
redirect raises UnboundLocalError after the (empty) commit: the request
ends in .raised with the store unchanged. -/
def delete_book (s : Store) (book_id : Int) (mode : String) : Store × HttpResult :=
  match s.books.find? fun b => b.id == book_id with
  | none => (s, .notFound)
  | some book =>
    match s.authors.find? fun a => a.id == book.author_id with
    | none => (s, .raised)
    | some author =>
      let author_book_count := (s.books.filter fun b => b.author_id == author.id).length
      if mode = "book" then
        ({ s with books := s.books.filter fun b => b.id != book_id },
         .redirectHome ("Book \x27" ++ book.title ++ "\x27 deleted."))
      else if mode = "book_and_author" then
        if author_book_count = 1 then
          ({ authors := s.authors.filter fun a => a.id != author.id,
             books := (s.books.filter fun b => b.id != book_id).filter
               fun b => b.author_id != author.id },
           .redirectHome ("Book \x27" ++ book.title ++ "\x27 and author \x27"
             ++ author.name ++ "\x27 deleted."))
        else
          ({ s with books := s.books.filter fun b => b.id != book_id },
           .redirectHome ("Book \x27" ++ book.title ++ "\x27 deleted, but author \x27"
             ++ author.name ++ "\x27 has other books."))
      else (s, .raised)

/-- POST /author/:id/delete from src/app.py: get_or_404, then deleting the
author cascades (all, delete-orphan plus ON DELETE CASCADE) to every book
referencing it, in the same transaction. -/
def delete_author (s : Store) (author_id : Int) : Store × HttpResult :=
  match s.authors.find? fun a => a.id == author_id with
  | none => (s, .notFound)
  | some author =>
    ({ authors := s.authors.filter fun a => a.id != author_id,
       books := s.books.filter fun b => b.author_id != author_id },
     .redirectHome ("Author \x27" ++ author.name ++ "\x27 and all their books deleted."))

/-- The fixed author rows of GET /seed. -/
def authors_to_seed : List (String × PyDate × PyDate) :=
  [("Isaac Asimov", ⟨1920, 1, 2⟩, ⟨1992, 4, 6⟩),
   ("Frank Herbert", ⟨1920, 10, 8⟩, ⟨1986, 2, 11⟩),
   ("Alex Haley", ⟨1921, 8, 11⟩, ⟨1965, 2, 21⟩),
   ("Mary Shelley", ⟨1797, 8, 30⟩, ⟨1851, 2, 1⟩),
   ("J.R.R. Tolkien", ⟨1892, 1, 3⟩, ⟨1973, 9, 2⟩),
   ("George Orwell", ⟨1903, 6, 25⟩, ⟨1950, 1, 21⟩),
   ("Harper Lee", ⟨1926, 4, 28⟩, ⟨2016, 2, 19⟩),
   ("J. D. Salinger", ⟨1919, 1, 1⟩, ⟨2010, 1, 27⟩)]

/-- The fixed book rows of GET /seed: isbn, title, year, author name. -/
def books_to_seed : List (String × String × Int × String) :=
  [("9780553293357", "Foundation", 1951, "Isaac Asimov"),
   ("9780441172719", "Dune", 1965, "Frank Herbert"),
   ("9780345350688", "The Autobiography of Malcolm X: As Told to Alex Haley", 1992, "Alex Haley"),
   ("9780486282114", "Frankenstein", 1818, "Mary Shelley"),
   ("9780547928227", "The Hobbit: Or, There and Back Again", 1937, "J.R.R. Tolkien"),
   ("9780141036144", "1984", 1949, "George Orwell"),
   ("9780061120084", "To Kill a Mockingbird", 1960, "Harper Lee"),
   ("9780241950432", "The Catcher in the Rye", 1951, "J. D. Salinger")]

/-- The authors_by_name dict of GET /seed: keyed by exact name; a dict
comprehension keeps the last row for a repeated name. -/
def authors_by_name (authors : List Author) (name : String) : Option Author :=
  (authors.filter fun a => a.name == name).getLast?

/-- One iteration of the author loop of GET /seed: insert the seed author
unless a row with the same exact name exists. -/
def seedAuthorStep (st : Store) (e : String × PyDate × PyDate) : Store :=
  if st.authors.any fun a => a.name == e.1 then st
  else { st with authors := st.authors ++
    [{ id := nextId (st.authors.map (·.id)), name := e.1,
       birth_date := e.2.1, date_of_death := some e.2.2 }] }

/-- One iteration of the book loop of GET /seed: insert the seed book
unless a row with the same ISBN exists; the author id comes from the
authors_by_name dict built over the authors present after the first
commit, and a missing key raises KeyError (.error). -/
def seedBookStep (s1 : Store) (st : Store) (e : String × String × Int × String) :
    Except Unit Store :=
  if st.books.any fun b => b.isbn == e.1 then pure st
  else
    match authors_by_name s1.authors e.2.2.2 with
    | none => .error ()
    | some a => pure { st with books := st.books ++
        [{ id := nextId (st.books.map (·.id)), isbn := e.1, title := e.2.1,
           publication_year := e.2.2.1, author_id := a.id }] }

/-- GET /seed from src/app.py. First loop inserts the missing seed authors
(matched by exact name) and commits; then books are inserted (matched by
exact ISBN) with the author id looked up in authors_by_name, and
committed. A missing dict key would raise KeyError before the second
commit, leaving only the author commit durable. -/
def seedFinish (s1 : Store) (r : Except Unit Store) : Store × HttpResult :=
  match r with
  | .ok s2 => (s2, .page "Seed data inserted. Go back to / to see the library.")
  | .error _ => (s1, .raised)

def seed (s : Store) : Store × HttpResult :=
  let s1 : Store := authors_to_seed.foldl seedAuthorStep s
  seedFinish s1 (books_to_seed.foldlM (seedBookStep s1) s1)

/-- Referential integrity: every book references an existing author. -/
def integrity (s : Store) : Prop :=
  ∀ b ∈ s.books, ∃ a ∈ s.authors, a.id = b.author_id

instance (s : Store) : Decidable (integrity s) := by
  unfold integrity; infer_instance

/-- The observable behaviour of one verifier call: allow the addition,
block it, or end the request with an uncaught exception. -/
inductive Verdict where
  | allow
  | block
  | raises
deriving DecidableEq, Repr

/-- Collapse the (ok, message) pair of validate_isbn_title to its verdict:
ok=True allows (both Match and Unknown allow), ok=False blocks, and a
propagating exception is raises. -/
def verdict : Except Unit (Bool × Option String) → Verdict
  | .error _ => .raises
  | .ok (true, _) => .allow
  | .ok (false, _) => .block

/-- Modelled from the spec: the decision table of section 4.3, amended at
the single point where the code departs from it — a 200 response whose
body is malformed raises instead of degrading to Unknown/allow. All other
rows are as the table states them: non-200 (including not-found) allows,
a missing or empty title field allows, a trimmed case-insensitive title
match allows, a differing title blocks, unreachability allows. -/
def specVerdictAmended (title : String) (remote : RemoteResult) : Verdict :=
  match remote with
  | .exn => .allow
  | .resp status body =>
    if status ≠ 200 then .allow
    else
      match body with
      | .malformed => .raises
      | .record none => .allow
      | .record (some t) =>
        if t = "" then .allow
        else if pyLower (pyStrip t) = pyLower (pyStrip title) then .allow
        else .block

/-- Claim C1, counterexample: when the remote responds 200 with a
malformed body, validate_isbn_title does not return Unknown/allow as the
claim states; response.json() raises outside the try block and the
exception escapes. -/
theorem C1_counterexample :
    validate_isbn_title "9780553293357" "Foundation" (.resp 200 .malformed) = .error () ∧
    verdict (validate_isbn_title "9780553293357" "Foundation" (.resp 200 .malformed))
      ≠ .allow := by
  exact ⟨rfl, by decide⟩

/-- Claim C1 (amended): for every ISBN, title and remote outcome, the
verifier follows the decision table of the spec with one amendment: a 200
response with a malformed body raises an uncaught exception instead of
yielding Unknown; every other row is as specified (200 with matching
trimmed case-folded title allows, differing title blocks, non-200,
missing or empty title field, and unreachability all yield
Unknown/allow). -/
theorem C1_amended (isbn title : String) (remote : RemoteResult) :
    verdict (validate_isbn_title isbn title remote) = specVerdictAmended title remote := by
  cases remote with
  | exn => rfl
  | resp status body =>
    by_cases h : status = 200
    · subst h
      cases body with
      | malformed => rfl
      | record t =>
        cases t with
        | none => rfl
        | some v =>
          by_cases hv : v = ""
          · simp [validate_isbn_title, specVerdictAmended, verdict, hv]
          · by_cases hm : pyLower (pyStrip v) = pyLower (pyStrip title)
            · simp [validate_isbn_title, specVerdictAmended, verdict, hv, hm]
            · simp [validate_isbn_title, specVerdictAmended, verdict, hv, hm]
    · cases body <;> simp [validate_isbn_title, specVerdictAmended, verdict, h]

/-- Claim C7: from the empty store, one run of seed leaves exactly 8
authors and 8 books with no duplicated natural keys, the run reports
success, and a second run changes nothing (idempotence). -/
theorem C7_seed_idempotent :
    (seed ⟨[], []⟩).1.authors.length = 8 ∧
    (seed ⟨[], []⟩).1.books.length = 8 ∧
    (seed ⟨[], []⟩).2 = .page "Seed data inserted. Go back to / to see the library." ∧
    (seed (seed ⟨[], []⟩).1).1 = (seed ⟨[], []⟩).1 ∧
    (seed (seed ⟨[], []⟩).1).2 = .page "Seed data inserted. Go back to / to see the library." ∧
    ((seed ⟨[], []⟩).1.authors.map (·.name)).Nodup ∧
    ((seed ⟨[], []⟩).1.books.map (·.isbn)).Nodup := by
  refine ⟨rfl, rfl, rfl, rfl, rfl, by decide, by decide⟩

/-- Author, book and store used as concrete instances in the witnesses,
following the worked example of the spec. -/
def sampleAuthor : Author :=
  { id := 1, name := "Jane Austen", birth_date := ⟨1775, 12, 16⟩, date_of_death := none }

def sampleBook : Book :=
  { id := 1, isbn := "9780141439518", title := "Pride and Prejudice",
    publication_year := 1813, author_id := 1 }

def sampleStore : Store := { authors := [sampleAuthor], books := [sampleBook] }

/-- Claim C9: deleting an existing book in mode book removes exactly that
book row and leaves the authors table untouched, even when it was the
last book of its author. -/
theorem C9_book_only (s : Store) (book_id : Int) (book : Book) (author : Author)
    (hb : s.books.find? (fun b => b.id == book_id) = some book)
    (ha : s.authors.find? (fun a => a.id == book.author_id) = some author) :
    delete_book s book_id "book" =
      ({ s with books := s.books.filter fun b => b.id != book_id },
       .redirectHome ("Book \x27" ++ book.title ++ "\x27 deleted.")) ∧
    (delete_book s book_id "book").1.authors = s.authors := by
  have h1 : delete_book s book_id "book" =
      ({ s with books := s.books.filter fun b => b.id != book_id },
       .redirectHome ("Book \x27" ++ book.title ++ "\x27 deleted.")) := by
    unfold delete_book
    rw [hb]
    dsimp only
    rw [ha]
    dsimp only
    rw [if_pos rfl]
  exact ⟨h1, by rw [h1]⟩

/-- Witness for C9 at the sample store, where the deleted book is the
last book of its author: the author row survives. -/
theorem C9_witness :
    delete_book sampleStore 1 "book" =
      ({ authors := [sampleAuthor], books := [] },
       .redirectHome "Book \x27Pride and Prejudice\x27 deleted.") :=
  ((C9_book_only sampleStore 1 sampleBook sampleAuthor (by rfl) (by rfl)).1).trans (by rfl)

/-- Claim C10: for an existing book and a mode other than book and
book_and_author, neither deletion branch runs; the store is unchanged
(book and author both still present) and no successful outcome is
produced — the unassigned msg makes the redirect raise. -/
theorem C10_unknown_mode (s : Store) (book_id : Int) (mode : String)
    (book : Book) (author : Author)
    (hb : s.books.find? (fun b => b.id == book_id) = some book)
    (ha : s.authors.find? (fun a => a.id == book.author_id) = some author)
    (hm1 : mode ≠ "book") (hm2 : mode ≠ "book_and_author") :
    delete_book s book_id mode = (s, .raised) ∧
    book ∈ (delete_book s book_id mode).1.books ∧
    author ∈ (delete_book s book_id mode).1.authors := by
  have h1 : delete_book s book_id mode = (s, .raised) := by
    unfold delete_book
    rw [hb]
    dsimp only
    rw [ha]
    dsimp only
    simp [hm1, hm2]
  exact ⟨h1, by rw [h1]; exact List.mem_of_find?_eq_some hb,
         by rw [h1]; exact List.mem_of_find?_eq_some ha⟩

/-- Witness for C10 at the sample store with the unrecognized mode
"everything". -/
theorem C10_witness : delete_book sampleStore 1 "everything" = (sampleStore, .raised) :=
  (C10_unknown_mode sampleStore 1 "everything" sampleBook sampleAuthor
    (by rfl) (by rfl) (by decide) (by decide)).1

/-- In a store where exactly one book row belongs to the given author id,
every book of that author equals the given one. -/
theorem author_filter_singleton {books : List Book} {book : Book} {aid : Int}
    (hmem : book ∈ books) (hP : book.author_id = aid)
    (h1 : (books.filter fun b => b.author_id == aid).length = 1) :
    ∀ b ∈ books, b.author_id = aid → b = book := by
  obtain ⟨x, hx⟩ := List.length_eq_one.mp h1
  have hbook : book ∈ books.filter fun b => b.author_id == aid :=
    List.mem_filter.mpr ⟨hmem, by simp [hP]⟩
  intro b hbmem hbid
  have hbf : b ∈ books.filter fun b => b.author_id == aid :=
    List.mem_filter.mpr ⟨hbmem, by simp [hbid]⟩
  rw [hx] at hbook hbf
  simp only [List.mem_singleton] at hbook hbf
  exact hbf.trans hbook.symm

/-- Claim C2: deleting an existing book in mode book_and_author removes
the book and, exactly when the author owned a single book, also the
author; with two or more books only the book row goes and the authors
table is untouched. -/
theorem C2_book_and_author_if_last (s : Store) (book_id : Int) (book : Book) (author : Author)
    (hb : s.books.find? (fun b => b.id == book_id) = some book)
    (ha : s.authors.find? (fun a => a.id == book.author_id) = some author) :
    ((s.books.filter fun b => b.author_id == author.id).length = 1 →
      delete_book s book_id "book_and_author" =
        ({ authors := s.authors.filter fun a => a.id != author.id,
           books := s.books.filter fun b => b.id != book_id },
         .redirectHome ("Book \x27" ++ book.title ++ "\x27 and author \x27"
           ++ author.name ++ "\x27 deleted."))) ∧
    (2 ≤ (s.books.filter fun b => b.author_id == author.id).length →
      delete_book s book_id "book_and_author" =
        ({ s with books := s.books.filter fun b => b.id != book_id },
         .redirectHome ("Book \x27" ++ book.title ++ "\x27 deleted, but author \x27"
           ++ author.name ++ "\x27 has other books.")) ∧
      (delete_book s book_id "book_and_author").1.authors = s.authors) := by
  have hmemb : book ∈ s.books := List.mem_of_find?_eq_some hb
  have hidb : book.id = book_id := by simpa using List.find?_some hb
  have haid : author.id = book.author_id := by simpa using List.find?_some ha
  constructor
  · intro h1
    have hcascade : ((s.books.filter fun b => b.id != book_id).filter
        fun b => b.author_id != author.id) = s.books.filter fun b => b.id != book_id := by
      apply List.filter_eq_self.mpr
      intro b hbf
      have hbf' := List.mem_filter.mp hbf
      have hbne : b.id ≠ book_id := by simpa using hbf'.2
      simp only [bne_iff_ne, ne_eq]
      intro hcontra
      have := author_filter_singleton hmemb haid.symm h1 b hbf'.1 hcontra
      exact hbne (this ▸ hidb)
    unfold delete_book
    rw [hb]
    dsimp only
    rw [ha]
    dsimp only
    rw [if_neg (by decide : ¬("book_and_author" = "book")), if_pos rfl, if_pos h1, hcascade]
  · intro h2
    have hne1 : ¬((s.books.filter fun b => b.author_id == author.id).length = 1) := by
      omega
    have h1 : delete_book s book_id "book_and_author" =
        ({ s with books := s.books.filter fun b => b.id != book_id },
         .redirectHome ("Book \x27" ++ book.title ++ "\x27 deleted, but author \x27"
           ++ author.name ++ "\x27 has other books.")) := by
      unfold delete_book
      rw [hb]
      dsimp only
      rw [ha]
      dsimp only
      rw [if_neg (by decide : ¬("book_and_author" = "book")), if_pos rfl, if_neg hne1]
    exact ⟨h1, by rw [h1]⟩

/-- Witness for C2: at the sample store the author owns exactly one book,
so both rows disappear. -/
theorem C2_witness :
    delete_book sampleStore 1 "book_and_author" =
      ({ authors := [], books := [] },
       .redirectHome "Book \x27Pride and Prejudice\x27 and author \x27Jane Austen\x27 deleted.") :=
  ((C2_book_and_author_if_last sampleStore 1 sampleBook sampleAuthor
      (by rfl) (by rfl)).1 (by rfl)).trans (by rfl)

theorem mem_of_getLast?_eq_some {α : Type} {l : List α} {a : α}
    (h : l.getLast? = some a) : a ∈ l := by
  obtain ⟨hne, ha⟩ := List.mem_getLast?_eq_getLast (show a ∈ l.getLast? by simp [h])
  exact ha ▸ List.getLast_mem hne

theorem integrity_append_author (s : Store) (hint : integrity s) (a : Author) :
    integrity { s with authors := s.authors ++ [a] } := by
  intro b hb
  obtain ⟨x, hx, hxid⟩ := hint b hb
  exact ⟨x, by simp [hx], hxid⟩

theorem integrity_filter_books (s : Store) (hint : integrity s) (p : Book → Bool) :
    integrity { s with books := s.books.filter p } := by
  intro b hb
  exact hint b (List.mem_of_mem_filter hb)

theorem integrity_append_book (s : Store) (hint : integrity s) (bk : Book)
    (hex : (s.authors.any fun a => a.id == bk.author_id) = true) :
    integrity { s with books := s.books ++ [bk] } := by
  intro b hb
  rcases List.mem_append.mp hb with h | h
  · exact hint b h
  · obtain ⟨x, hx, hxid⟩ := List.any_eq_true.mp hex
    have hb' : b = bk := by simpa using h
    exact ⟨x, hx, by simp only [hb']; simpa using hxid⟩

theorem integrity_delete_pair (s : Store) (hint : integrity s) (bid aid : Int) :
    integrity { authors := s.authors.filter fun a => a.id != aid,
                books := (s.books.filter fun b => b.id != bid).filter
                  fun b => b.author_id != aid } := by
  intro b hb
  have hb1 := List.mem_filter.mp hb
  have hbneq : b.author_id ≠ aid := by simpa using hb1.2
  have hbmem : b ∈ s.books := List.mem_of_mem_filter hb1.1
  obtain ⟨x, hx, hxid⟩ := hint b hbmem
  refine ⟨x, List.mem_filter.mpr ⟨hx, ?_⟩, hxid⟩
  simp [hxid, hbneq]

theorem integrity_add_author_op (s : Store) (hint : integrity s) (n bd dd : Option String) :
    integrity (add_author s n bd dd).1 := by
  unfold add_author
  dsimp only
  repeat' split
  any_goals exact hint
  exact integrity_append_author s hint _

theorem integrity_add_book_op (s : Store) (hint : integrity s)
    (i t y a : Option String) (r : RemoteResult) :
    integrity (add_book s i t y a r).1 := by
  unfold add_book
  dsimp only
  repeat' split
  any_goals exact hint
  rename_i hex
  exact integrity_append_book s hint _ hex

theorem integrity_delete_book_op (s : Store) (hint : integrity s) (bid : Int) (m : String) :
    integrity (delete_book s bid m).1 := by
  unfold delete_book
  dsimp only
  repeat' split
  any_goals exact hint
  any_goals exact integrity_filter_books s hint _
  exact integrity_delete_pair s hint _ _

theorem integrity_delete_author_op (s : Store) (hint : integrity s) (aid : Int) :
    integrity (delete_author s aid).1 := by
  unfold delete_author
  split
  · exact hint
  · intro b hb
    have hb1 := List.mem_filter.mp hb
    have hbneq : b.author_id ≠ aid := by simpa using hb1.2
    obtain ⟨x, hx, hxid⟩ := hint b hb1.1
    refine ⟨x, List.mem_filter.mpr ⟨hx, ?_⟩, hxid⟩
    simp [hxid, hbneq]

theorem integrity_seed_author_fold (l : List (String × PyDate × PyDate)) :
    ∀ s : Store, integrity s → integrity (l.foldl seedAuthorStep s) := by
  induction l with
  | nil => intro s hint; exact hint
  | cons e rest ih =>
    intro s hint
    rw [List.foldl_cons]
    apply ih
    unfold seedAuthorStep
    split
    · exact hint
    · exact integrity_append_author s hint _

theorem seedAuthorStep_books (st : Store) (e : String × PyDate × PyDate) :
    (seedAuthorStep st e).books = st.books := by
  unfold seedAuthorStep
  split <;> rfl

theorem seedBookStep_ok (s1 st st' : Store) (e : String × String × Int × String)
    (h : seedBookStep s1 st e = .ok st') :
    st'.authors = st.authors ∧ (integrity st → st.authors = s1.authors → integrity st') := by
  unfold seedBookStep at h
  split at h
  · cases (show Except.ok st = Except.ok st' from h)
    exact ⟨rfl, fun hI _ => hI⟩
  · split at h
    · exact Except.noConfusion (show Except.error () = Except.ok st' from h)
    · rename_i a hlook
      cases (show Except.ok _ = Except.ok st' from h)
      refine ⟨rfl, fun hI hA => ?_⟩
      apply integrity_append_book st hI
      have hmem : a ∈ s1.authors :=
        List.mem_of_mem_filter (mem_of_getLast?_eq_some hlook)
      rw [hA]
      exact List.any_eq_true.mpr ⟨a, hmem, by simp⟩

theorem integrity_seed_book_fold (s1 : Store) (l : List (String × String × Int × String)) :
    ∀ st : Store, st.authors = s1.authors → integrity st →
      ∀ s2, l.foldlM (seedBookStep s1) st = Except.ok s2 →
        s2.authors = s1.authors ∧ integrity s2 := by
  induction l with
  | nil =>
    intro st hA hI s2 h
    rw [List.foldlM_nil] at h
    cases (show Except.ok st = Except.ok s2 from h)
    exact ⟨hA, hI⟩
  | cons e rest ih =>
    intro st hA hI s2 h
    rw [List.foldlM_cons] at h
    cases hstep : seedBookStep s1 st e with
    | error u =>
      rw [hstep] at h
      exact Except.noConfusion (show Except.error () = Except.ok s2 from h)
    | ok st' =>
      rw [hstep] at h
      obtain ⟨hA', hI'⟩ := seedBookStep_ok s1 st st' e hstep
      exact ih st' (hA'.trans hA) (hI' hI hA) s2
        (show rest.foldlM (seedBookStep s1) st' = Except.ok s2 from h)

theorem integrity_seedFinish (s1 : Store) (r : Except Unit Store)
    (h1 : integrity s1) (h2 : ∀ s2, r = .ok s2 → integrity s2) :
    integrity (seedFinish s1 r).1 := by
  cases r with
  | ok s2 => exact h2 s2 rfl
  | error u => exact h1

theorem integrity_seed_op (s : Store) (hint : integrity s) : integrity (seed s).1 := by
  have h1 : integrity (authors_to_seed.foldl seedAuthorStep s) :=
    integrity_seed_author_fold authors_to_seed s hint
  unfold seed
  dsimp only
  exact integrity_seedFinish _ _ h1
    (fun s2 hok => (integrity_seed_book_fold _ books_to_seed _ rfl h1 s2 hok).2)

/-- Claim C3: deleting an author leaves no book row referencing the
deleted author id (the cascade removes every owned book in the same
atomic unit), and the referential-integrity invariant — no book
references a nonexistent author — is preserved by every mutating
operation of the application. -/
theorem C3_cascade_integrity (s : Store) (hint : integrity s) :
    (∀ aid : Int, ∀ b ∈ (delete_author s aid).1.books, b.author_id ≠ aid) ∧
    (∀ aid : Int, integrity (delete_author s aid).1) ∧
    (∀ n bd dd, integrity (add_author s n bd dd).1) ∧
    (∀ i t y a r, integrity (add_book s i t y a r).1) ∧
    (∀ bid m, integrity (delete_book s bid m).1) ∧
    integrity (seed s).1 := by
  refine ⟨?_, fun aid => integrity_delete_author_op s hint aid,
      fun n bd dd => integrity_add_author_op s hint n bd dd,
      fun i t y a r => integrity_add_book_op s hint i t y a r,
      fun bid m => integrity_delete_book_op s hint bid m,
      integrity_seed_op s hint⟩
  intro aid b
  unfold delete_author
  cases hfind : s.authors.find? fun a => a.id == aid with
  | none =>
    intro hb
    dsimp only at hb
    obtain ⟨x, hx, hxid⟩ := hint b hb
    have := List.find?_eq_none.mp hfind x hx
    intro hcontra
    exact this (by simp [hxid, hcontra])
  | some author =>
    intro hb
    dsimp only at hb
    have hb1 := List.mem_filter.mp hb
    simpa using hb1.2

/-- Witness for C3: the integrity hypothesis holds at the empty store,
and the conclusion applies to the seeded store. -/
theorem C3_witness : integrity (seed ⟨[], []⟩).1 :=
  (C3_cascade_integrity ⟨[], []⟩ (by decide)).2.2.2.2.2

theorem pyInt_of_falsy {y : Option String} (h : falsyOptStr y = true) :
    pyInt (y.getD "") = none := by
  cases y with
  | none => rfl
  | some s =>
    have hs : s = "" := by simpa [falsyOptStr] using h
    subst hs
    rfl

theorem not_falsy_of_pyInt_some {y : Option String} {v : Int}
    (h : pyInt (y.getD "") = some v) : falsyOptStr y = false := by
  cases hf : falsyOptStr y
  · rfl
  · rw [pyInt_of_falsy hf] at h
    cases h

theorem any_of_filter_length_one {α : Type} (l : List α) (p : α → Bool)
    (h : (l.filter p).length = 1) : l.any p = true := by
  obtain ⟨x, hx⟩ := List.length_eq_one.mp h
  have hmem : x ∈ l.filter p := by rw [hx]; exact List.mem_singleton_self x
  have h2 := List.mem_filter.mp hmem
  exact List.any_eq_true.mpr ⟨x, h2.1, h2.2⟩

theorem find?_isSome_of_filter_length_one {α : Type} (l : List α) (p : α → Bool)
    (h : (l.filter p).length = 1) : (l.find? p).isSome = true := by
  obtain ⟨x, hx⟩ := List.length_eq_one.mp h
  have hmem : x ∈ l.filter p := by rw [hx]; exact List.mem_singleton_self x
  have h2 := List.mem_filter.mp hmem
  simp only [List.find?_isSome]
  exact ⟨x, h2.1, h2.2⟩

/-- Claim C4: when the store already holds exactly one book with the
submitted (trimmed) ISBN, a further add-book submission with that ISBN —
whatever its title, year, author or remote outcome — is rejected with the
duplicate-ISBN message, the store is returned unchanged, and exactly one
book with that ISBN remains. -/
theorem C4_duplicate_isbn (s : Store) (i t y a : Option String) (r : RemoteResult)
    (isbn : String) (py aid : Int)
    (hisbn : pyStrip (i.getD "") = isbn) (hin : isbn ≠ "")
    (ht : pyStrip (t.getD "") ≠ "")
    (hy : pyInt (y.getD "") = some py) (ha2 : pyInt (a.getD "") = some aid)
    (hone : (s.books.filter fun b => b.isbn == isbn).length = 1) :
    add_book s i t y a r = (s, .page ("A book with ISBN " ++ isbn ++ " already exists.")) ∧
    ((add_book s i t y a r).1.books.filter fun b => b.isbn == isbn).length = 1 := by
  have hfy : falsyOptStr y = false := not_falsy_of_pyInt_some hy
  have hfa : falsyOptStr a = false := not_falsy_of_pyInt_some ha2
  have hdup : (s.books.any fun b => b.isbn == isbn) = true :=
    any_of_filter_length_one s.books _ hone
  have h1 : add_book s i t y a r =
      (s, .page ("A book with ISBN " ++ isbn ++ " already exists.")) := by
    unfold add_book
    dsimp only
    rw [hisbn]
    rw [if_neg (by simp [hin, ht, hfy, hfa])]
    rw [hy, ha2]
    dsimp only
    rw [if_pos hdup]
  exact ⟨h1, by rw [h1]; exact hone⟩

/-- Witness for C4: re-adding the sample book ISBN with a different
title, year, author and an arbitrary remote response is rejected and the
store keeps its single book. -/
theorem C4_witness :
    add_book sampleStore (some "9780141439518") (some "Different Title") (some "2001")
        (some "7") (.resp 200 (.record (some "x"))) =
      (sampleStore, .page "A book with ISBN 9780141439518 already exists.") ∧
    ((add_book sampleStore (some "9780141439518") (some "Different Title") (some "2001")
        (some "7") (.resp 200 (.record (some "x")))).1.books.filter
      fun b => b.isbn == "9780141439518").length = 1 :=
  C4_duplicate_isbn sampleStore (some "9780141439518") (some "Different Title") (some "2001")
    (some "7") (.resp 200 (.record (some "x"))) "9780141439518" 2001 7
    rfl (by decide) (by decide) rfl rfl (by rfl)

/-- Claim C8: when the store already holds exactly one author whose name
equals the submitted (trimmed) name under case-insensitive comparison, a
further add-author submission with any casing of that name is rejected
with the duplicate-author message before anything is persisted, and
exactly one such author remains. -/
theorem C8_duplicate_author (s : Store) (n b d : Option String) (name : String)
    (hname : pyStrip (n.getD "") = name) (hne : name ≠ "")
    (hb : falsyOptStr b = false)
    (hone : (s.authors.filter fun x => pyLower x.name == pyLower name).length = 1) :
    add_author s n b d = (s, .page ("Author \x27" ++ name ++ "\x27 already exists.")) ∧
    ((add_author s n b d).1.authors.filter
      fun x => pyLower x.name == pyLower name).length = 1 := by
  have hfind : (s.authors.find? fun x => pyLower x.name == pyLower name).isSome = true :=
    find?_isSome_of_filter_length_one s.authors _ hone
  have h1 : add_author s n b d =
      (s, .page ("Author \x27" ++ name ++ "\x27 already exists.")) := by
    unfold add_author
    dsimp only
    rw [hname]
    rw [if_neg (by simp [hne, hb]), if_pos hfind]
  exact ⟨h1, by rw [h1]; exact hone⟩

/-- Witness for C8: re-submitting the sample author name in upper case is
rejected and the single stored author survives unchanged. -/
theorem C8_witness :
    add_author sampleStore (some "JANE AUSTEN") (some "1800-01-01") none =
      (sampleStore, .page "Author \x27JANE AUSTEN\x27 already exists.") ∧
    ((add_author sampleStore (some "JANE AUSTEN") (some "1800-01-01") none).1.authors.filter
      fun x => pyLower x.name == pyLower "JANE AUSTEN").length = 1 :=
  C8_duplicate_author sampleStore (some "JANE AUSTEN") (some "1800-01-01") none "JANE AUSTEN"
    rfl (by decide) rfl (by rfl)

/-- Claim C5, counterexample: a malformed birth date string submitted to
add-author is not surfaced as status text with a redisplay; strptime
raises ValueError with no handler on the route and the request ends as a
raw uncaught exception. -/
theorem C5_counterexample :
    (add_author ⟨[], []⟩ (some "Jane Austen") (some "not-a-date") none).2 =
      HttpResult.raised := by
  rfl

/-- Claim C5 (amended): failures are surfaced as status text with a
redisplay or redirect provided the request stays on the handled paths:
delete-author never raises; delete-book in its two recognized modes never
raises on a store with referential integrity; add-author never raises
when the submitted date strings parse; add-book never raises when the
verifier call does not itself raise and any parsed author id references
an existing author. Outside those provisos (malformed date strings,
malformed 200-response bodies, nonexistent add-book author ids,
unrecognized delete modes) the operation escapes as a raw exception. -/
theorem C5_failures_surfaced (s : Store) (hint : integrity s) :
    (∀ aid : Int, (delete_author s aid).2 ≠ .raised) ∧
    (∀ bid : Int, (delete_book s bid "book").2 ≠ .raised) ∧
    (∀ bid : Int, (delete_book s bid "book_and_author").2 ≠ .raised) ∧
    (∀ n bd dd, parse_date bd ≠ .error () → parse_date dd ≠ .error () →
      (add_author s n bd dd).2 ≠ .raised) ∧
    (∀ i t y a r,
      validate_isbn_title (pyStrip (i.getD "")) (pyStrip (t.getD "")) r ≠ .error () →
      (∀ aid : Int, pyInt (a.getD "") = some aid →
        (s.authors.any fun x => x.id == aid) = true) →
      (add_book s i t y a r).2 ≠ .raised) := by
  refine ⟨?_, ?_, ?_, ?_, ?_⟩
  · intro aid
    unfold delete_author
    cases hfind : s.authors.find? fun a => a.id == aid <;> simp
  · intro bid
    unfold delete_book
    cases hfb : s.books.find? fun b => b.id == bid with
    | none => simp
    | some book =>
      dsimp only
      obtain ⟨x, hx, hxid⟩ := hint book (List.mem_of_find?_eq_some hfb)
      cases hfa : s.authors.find? fun a => a.id == book.author_id with
      | none => exact absurd (List.find?_eq_none.mp hfa x hx) (by simp [hxid])
      | some author => simp
  · intro bid
    unfold delete_book
    cases hfb : s.books.find? fun b => b.id == bid with
    | none => simp
    | some book =>
      dsimp only
      obtain ⟨x, hx, hxid⟩ := hint book (List.mem_of_find?_eq_some hfb)
      cases hfa : s.authors.find? fun a => a.id == book.author_id with
      | none => exact absurd (List.find?_eq_none.mp hfa x hx) (by simp [hxid])
      | some author =>
        dsimp only
        rw [if_neg (by decide : ¬("book_and_author" = "book")), if_pos rfl]
        split <;> simp
  · intro n bd dd hbd hdd
    unfold add_author
    dsimp only
    split
    · simp
    · rename_i hcond
      split
      · simp
      · split
        · simp
        · rename_i hexcl
          exfalso
          have hfb : falsyOptStr bd = false := by
            rcases not_or.mp hcond with ⟨-, h2⟩
            simpa using h2
          cases hpd2 : parse_date dd with
          | error u => cases u; exact hdd hpd2
          | ok vd =>
            cases bd with
            | none => simp [falsyOptStr] at hfb
            | some sb =>
              have hsb : ¬(sb = "") := by simpa [falsyOptStr] using hfb
              cases hst : strptimeYmd sb with
              | none => exact hbd (by unfold parse_date; dsimp only; rw [if_neg hsb, hst])
              | some d0 =>
                exact hexcl d0 vd (by unfold parse_date; dsimp only; rw [if_neg hsb, hst]) hpd2
  · intro i t y a r hval hauth
    unfold add_book
    dsimp only
    split
    · simp
    · cases hpy : pyInt (y.getD "") with
      | none => simp
      | some py =>
        cases hpa : pyInt (a.getD "") with
        | none => simp
        | some aid =>
          dsimp only
          split
          · simp
          · split
            · simp
            · cases hv : validate_isbn_title (pyStrip (i.getD "")) (pyStrip (t.getD "")) r with
              | error u => cases u; exact absurd hv hval
              | ok pr =>
                obtain ⟨okflag, em⟩ := pr
                dsimp only
                split
                · simp
                · split
                  · simp
                  · rename_i hnoauth
                    exact absurd (hauth aid hpa) hnoauth

/-- Witness for C5 at the empty store: the delete-author conjunct applied
to a concrete id. -/
theorem C5_witness : (delete_author ⟨[], []⟩ 1).2 ≠ HttpResult.raised :=
  (C5_failures_surfaced ⟨[], []⟩ (by decide)).1 1

theorem ne_append_singleton {α : Type} (l : List α) (x : α) : l ≠ l ++ [x] := by
  intro h
  have h2 := congrArg List.length h
  simp at h2

/-- Claim C6, counterexample: with a single stored author of id 1, an
add-book submission naming author 2 passes every one of the four listed
checks — fields present and typed, no ISBN duplicate, no
title-per-author duplicate, verifier allows (remote unreachable) — yet no
book row is persisted: the commit violates the foreign key and the
request raises, so persistence is not equivalent to the checks passing. -/
theorem C6_counterexample :
    pyInt "2001" = some 2001 ∧ pyInt "2" = some 2 ∧
    ((⟨[sampleAuthor], []⟩ : Store).books.any fun b => b.isbn == "9780000000000") = false ∧
    ((⟨[sampleAuthor], []⟩ : Store).books.any
      fun b => pyLower b.title == pyLower "New Title" && b.author_id == 2) = false ∧
    validate_isbn_title "9780000000000" "New Title" .exn = .ok (true, none) ∧
    add_book ⟨[sampleAuthor], []⟩ (some "9780000000000") (some "New Title") (some "2001")
        (some "2") .exn = (⟨[sampleAuthor], []⟩, .raised) := by
  exact ⟨rfl, rfl, rfl, rfl, rfl, rfl⟩

/-- Claim C6 (amended): add-book runs its checks in the fixed order —
field presence, integer typing, ISBN duplicate, title-per-author
duplicate, external verifier — the first failing check yields its message
with the store unchanged, a duplicate rejection is independent of the
remote response (no observable network call), and a book row is persisted
if and only if every check passes, the verifier allows, and the parsed
author id references an existing author; when the checks pass but the
author does not exist the storage layer rejects the insert and the
request raises with nothing persisted. -/
theorem C6_check_order (s : Store) (i t y a : Option String) (r : RemoteResult)
    (isbn title : String)
    (hisbn : pyStrip (i.getD "") = isbn) (htitle : pyStrip (t.getD "") = title) :
    ((isbn = "" ∨ title = "" ∨ falsyOptStr y = true ∨ falsyOptStr a = true) →
      add_book s i t y a r = (s, .page "All fields are required.")) ∧
    (¬(isbn = "" ∨ title = "" ∨ falsyOptStr y = true ∨ falsyOptStr a = true) →
      ((pyInt (y.getD "") = none ∨ pyInt (a.getD "") = none) →
        add_book s i t y a r = (s, .page "Publication year and author must be valid.")) ∧
      (∀ py aid : Int, pyInt (y.getD "") = some py → pyInt (a.getD "") = some aid →
        ((s.books.any fun b => b.isbn == isbn) = true →
          add_book s i t y a r =
            (s, .page ("A book with ISBN " ++ isbn ++ " already exists.")) ∧
          ∀ r2, add_book s i t y a r2 = add_book s i t y a r) ∧
        ((s.books.any fun b => b.isbn == isbn) = false →
          (s.books.any fun b => pyLower b.title == pyLower title && b.author_id == aid) = true →
          add_book s i t y a r =
            (s, .page ("The author already has a book titled \x27" ++ title ++ "\x27.")) ∧
          ∀ r2, add_book s i t y a r2 = add_book s i t y a r) ∧
        ((add_book s i t y a r).1.books = s.books ++
            [{ id := nextId (s.books.map (·.id)), isbn := isbn, title := title,
               publication_year := py, author_id := aid }] ↔
          ((s.books.any fun b => b.isbn == isbn) = false ∧
           (s.books.any fun b => pyLower b.title == pyLower title && b.author_id == aid) = false ∧
           (∃ em, validate_isbn_title isbn title r = .ok (true, em)) ∧
           (s.authors.any fun x => x.id == aid) = true)))) := by
  have hA : ∀ r2, (isbn = "" ∨ title = "" ∨ falsyOptStr y = true ∨ falsyOptStr a = true) →
      add_book s i t y a r2 = (s, .page "All fields are required.") := by
    intro r2 hcond
    unfold add_book
    dsimp only
    rw [hisbn, htitle, if_pos hcond]
  have hB : ∀ r2, ¬(isbn = "" ∨ title = "" ∨ falsyOptStr y = true ∨ falsyOptStr a = true) →
      (pyInt (y.getD "") = none ∨ pyInt (a.getD "") = none) →
      add_book s i t y a r2 = (s, .page "Publication year and author must be valid.") := by
    intro r2 hnc hpn
    unfold add_book
    dsimp only
    rw [hisbn, htitle, if_neg hnc]
    rcases hpn with hy2 | ha2
    · rw [hy2]
    · cases hy3 : pyInt (y.getD "") with
      | none => rfl
      | some py => rw [ha2]
  have hC : ∀ (r2 : RemoteResult) (py aid : Int),
      ¬(isbn = "" ∨ title = "" ∨ falsyOptStr y = true ∨ falsyOptStr a = true) →
      pyInt (y.getD "") = some py → pyInt (a.getD "") = some aid →
      (s.books.any fun b => b.isbn == isbn) = true →
      add_book s i t y a r2 = (s, .page ("A book with ISBN " ++ isbn ++ " already exists.")) := by
    intro r2 py aid hnc hpy hpa hdup
    unfold add_book
    dsimp only
    rw [hisbn, htitle, if_neg hnc, hpy, hpa]
    dsimp only
    rw [if_pos hdup]
  have hD : ∀ (r2 : RemoteResult) (py aid : Int),
      ¬(isbn = "" ∨ title = "" ∨ falsyOptStr y = true ∨ falsyOptStr a = true) →
      pyInt (y.getD "") = some py → pyInt (a.getD "") = some aid →
      (s.books.any fun b => b.isbn == isbn) = false →
      (s.books.any fun b => pyLower b.title == pyLower title && b.author_id == aid) = true →
      add_book s i t y a r2 =
        (s, .page ("The author already has a book titled \x27" ++ title ++ "\x27.")) := by
    intro r2 py aid hnc hpy hpa hd1 hd2
    unfold add_book
    dsimp only
    rw [hisbn, htitle, if_neg hnc, hpy, hpa]
    dsimp only
    rw [if_neg (by simp [hd1]), if_pos hd2]
  have hVerr : ∀ (r2 : RemoteResult) (py aid : Int),
      ¬(isbn = "" ∨ title = "" ∨ falsyOptStr y = true ∨ falsyOptStr a = true) →
      pyInt (y.getD "") = some py → pyInt (a.getD "") = some aid →
      (s.books.any fun b => b.isbn == isbn) = false →
      (s.books.any fun b => pyLower b.title == pyLower title && b.author_id == aid) = false →
      validate_isbn_title isbn title r2 = .error () →
      add_book s i t y a r2 = (s, .raised) := by
    intro r2 py aid hnc hpy hpa hd1 hd2 hv
    unfold add_book
    dsimp only
    rw [hisbn, htitle, if_neg hnc, hpy, hpa]
    dsimp only
    rw [if_neg (by simp [hd1]), if_neg (by simp [hd2]), hv]
  have hBlock : ∀ (r2 : RemoteResult) (py aid : Int) (em : Option String),
      ¬(isbn = "" ∨ title = "" ∨ falsyOptStr y = true ∨ falsyOptStr a = true) →
      pyInt (y.getD "") = some py → pyInt (a.getD "") = some aid →
      (s.books.any fun b => b.isbn == isbn) = false →
      (s.books.any fun b => pyLower b.title == pyLower title && b.author_id == aid) = false →
      validate_isbn_title isbn title r2 = .ok (false, em) →
      add_book s i t y a r2 = (s, .page (em.getD "")) := by
    intro r2 py aid em hnc hpy hpa hd1 hd2 hv
    unfold add_book
    dsimp only
    rw [hisbn, htitle, if_neg hnc, hpy, hpa]
    dsimp only
    rw [if_neg (by simp [hd1]), if_neg (by simp [hd2]), hv]
    dsimp only
    rw [if_pos (by simp)]
  have hRaise : ∀ (r2 : RemoteResult) (py aid : Int) (em : Option String),
      ¬(isbn = "" ∨ title = "" ∨ falsyOptStr y = true ∨ falsyOptStr a = true) →
      pyInt (y.getD "") = some py → pyInt (a.getD "") = some aid →
      (s.books.any fun b => b.isbn == isbn) = false →
      (s.books.any fun b => pyLower b.title == pyLower title && b.author_id == aid) = false →
      validate_isbn_title isbn title r2 = .ok (true, em) →
      (s.authors.any fun x => x.id == aid) = false →
      add_book s i t y a r2 = (s, .raised) := by
    intro r2 py aid em hnc hpy hpa hd1 hd2 hv hany
    unfold add_book
    dsimp only
    rw [hisbn, htitle, if_neg hnc, hpy, hpa]
    dsimp only
    rw [if_neg (by simp [hd1]), if_neg (by simp [hd2]), hv]
    dsimp only
    rw [if_neg (by simp), if_neg (by simp [hany])]
  have hE : ∀ (r2 : RemoteResult) (py aid : Int) (em : Option String),
      ¬(isbn = "" ∨ title = "" ∨ falsyOptStr y = true ∨ falsyOptStr a = true) →
      pyInt (y.getD "") = some py → pyInt (a.getD "") = some aid →
      (s.books.any fun b => b.isbn == isbn) = false →
      (s.books.any fun b => pyLower b.title == pyLower title && b.author_id == aid) = false →
      validate_isbn_title isbn title r2 = .ok (true, em) →
      (s.authors.any fun x => x.id == aid) = true →
      add_book s i t y a r2 =
        ({ s with books := s.books ++
            [{ id := nextId (s.books.map (·.id)), isbn := isbn, title := title,
               publication_year := py, author_id := aid }] },
         .page ("Book \x27" ++ title ++ "\x27 added successfully.")) := by
    intro r2 py aid em hnc hpy hpa hd1 hd2 hv hany
    unfold add_book
    dsimp only
    rw [hisbn, htitle, if_neg hnc, hpy, hpa]
    dsimp only
    rw [if_neg (by simp [hd1]), if_neg (by simp [hd2]), hv]
    dsimp only
    rw [if_neg (by simp), if_pos hany]
  refine ⟨hA r, fun hnc => ⟨hB r hnc, fun py aid hpy hpa => ⟨?_, ?_, ?_⟩⟩⟩
  · intro hdup
    exact ⟨hC r py aid hnc hpy hpa hdup,
      fun r2 => (hC r2 py aid hnc hpy hpa hdup).trans (hC r py aid hnc hpy hpa hdup).symm⟩
  · intro hd1 hd2
    exact ⟨hD r py aid hnc hpy hpa hd1 hd2,
      fun r2 => (hD r2 py aid hnc hpy hpa hd1 hd2).trans (hD r py aid hnc hpy hpa hd1 hd2).symm⟩
  · constructor
    · intro hbooks
      cases hd1 : s.books.any fun b => b.isbn == isbn with
      | true =>
        rw [hC r py aid hnc hpy hpa hd1] at hbooks
        exact absurd hbooks (ne_append_singleton s.books _)
      | false =>
        cases hd2 : s.books.any fun b => pyLower b.title == pyLower title
            && b.author_id == aid with
        | true =>
          rw [hD r py aid hnc hpy hpa hd1 hd2] at hbooks
          exact absurd hbooks (ne_append_singleton s.books _)
        | false =>
          cases hv : validate_isbn_title isbn title r with
          | error u =>
            cases u
            rw [hVerr r py aid hnc hpy hpa hd1 hd2 hv] at hbooks
            exact absurd hbooks (ne_append_singleton s.books _)
          | ok pr =>
            obtain ⟨okflag, em⟩ := pr
            cases okflag with
            | false =>
              rw [hBlock r py aid em hnc hpy hpa hd1 hd2 hv] at hbooks
              exact absurd hbooks (ne_append_singleton s.books _)
            | true =>
              cases hany : s.authors.any fun x => x.id == aid with
              | false =>
                rw [hRaise r py aid em hnc hpy hpa hd1 hd2 hv hany] at hbooks
                exact absurd hbooks (ne_append_singleton s.books _)
              | true => exact ⟨rfl, rfl, ⟨em, rfl⟩, rfl⟩
    · rintro ⟨hd1, hd2, ⟨em, hv⟩, hany⟩
      rw [hE r py aid em hnc hpy hpa hd1 hd2 hv hany]

/-- Witness for C6: at the sample store, re-submitting the stored ISBN
with fresh fields is rejected by the ISBN duplicate check with the store
unchanged, whatever the remote would have answered. -/
theorem C6_witness :
    add_book sampleStore (some "9780141439518") (some "Other") (some "1999") (some "1")
        RemoteResult.exn =
      (sampleStore, .page "A book with ISBN 9780141439518 already exists.") :=
  ((((C6_check_order sampleStore (some "9780141439518") (some "Other") (some "1999") (some "1")
      RemoteResult.exn "9780141439518" "Other" rfl rfl).2 (by decide)).2 1999 1 rfl rfl).1
    (by rfl)).1

end BookAlchemy
